import Mathlib

/-!
Shallow embedding of the Piotroski F-Score scoring engine
(`src/fscore.py` of `value_stocks_piotroski`) and proofs of the
specification claims about it.

A pandas `DataFrame` as used by the engine is modelled by `FinTable`: a row
index (line-item labels), a column index (period identifiers), and a cell
function.  `DataFrame.loc[label, period]` raises `KeyError` exactly when the
label is absent from the row index or the period is absent from the columns,
which `FinTable.loc` models by returning `none` in that case.  Numeric cell
values are modelled by `ℚ`.  Python's `x / y if y else 0` idiom is modelled
by `ratio`.  Raising `ValueError` in `compute_piotroski_fscore` is modelled
by returning `none`.
-/

/-- A financial-statement table: pandas `DataFrame` with a row index of
line-item labels, a column index of period identifiers, and numeric cells. -/
structure FinTable where
  rowLabels : List String
  cols : List String
  val : String → String → ℚ

/-- Element access `t.loc[label, period]`: `KeyError` (here `none`) exactly
when the label is not a row or the period is not a column. -/
def FinTable.loc (t : FinTable) (label period : String) : Option ℚ :=
  if label ∈ t.rowLabels ∧ period ∈ t.cols then some (t.val label period) else none

/-- Python's guarded-division idiom `num / den if den else 0`:
the ratio is 0 whenever the denominator is zero, and no fault is raised. -/
def ratio (num den : ℚ) : ℚ :=
  if den = 0 then 0 else num / den

/-- Criterion 1 (ROA Positive), from `fscore.py`: 1 if
Net Income / Total Assets in the current period is positive, else 0;
a `KeyError` on either lookup yields 0.  The `prev` argument is accepted
but unused, as in the source. -/
def criterion_1 (financials balance_sheet : FinTable) (curr prev : String) : ℕ :=
  match financials.loc "Net Income" curr, balance_sheet.loc "Total Assets" curr with
  | some net_income, some total_assets =>
      if ratio net_income total_assets > 0 then 1 else 0
  | _, _ => 0

/-- Criterion 2 (OCF Positive), from `fscore.py`: 1 if Operating Cash Flow
in the current period is positive, else 0; a `KeyError` yields 0. -/
def criterion_2 (cash_flow : FinTable) (curr : String) : ℕ :=
  match cash_flow.loc "Total Cash From Operating Activities" curr with
  | some ocf => if ocf > 0 then 1 else 0
  | none => 0

/-- Criterion 3 (ROA Improvement), from `fscore.py`: 1 if current ROA
exceeds previous ROA, else 0; any `KeyError` yields 0. -/
def criterion_3 (financials balance_sheet : FinTable) (curr prev : String) : ℕ :=
  match financials.loc "Net Income" curr, balance_sheet.loc "Total Assets" curr,
        financials.loc "Net Income" prev, balance_sheet.loc "Total Assets" prev with
  | some ni_c, some ta_c, some ni_p, some ta_p =>
      if ratio ni_c ta_c > ratio ni_p ta_p then 1 else 0
  | _, _, _, _ => 0

/-- Criterion 4 (Quality of Earnings), from `fscore.py`: 1 if Operating Cash
Flow exceeds Net Income in the current period, else 0; any `KeyError`
yields 0. -/
def criterion_4 (financials cash_flow : FinTable) (curr : String) : ℕ :=
  match financials.loc "Net Income" curr,
        cash_flow.loc "Total Cash From Operating Activities" curr with
  | some net_income, some ocf => if ocf > net_income then 1 else 0
  | _, _ => 0

/-- Criterion 5 (Leverage Improvement), from `fscore.py`: 1 if current
leverage (Long Term Debt / Total Assets) is below previous leverage, else 0;
any `KeyError` yields 0. -/
def criterion_5 (balance_sheet : FinTable) (curr prev : String) : ℕ :=
  match balance_sheet.loc "Long Term Debt" curr, balance_sheet.loc "Total Assets" curr,
        balance_sheet.loc "Long Term Debt" prev, balance_sheet.loc "Total Assets" prev with
  | some ltd_c, some ta_c, some ltd_p, some ta_p =>
      if ratio ltd_c ta_c < ratio ltd_p ta_p then 1 else 0
  | _, _, _, _ => 0

/-- Criterion 6 (Liquidity Improvement), from `fscore.py`: 1 if the current
ratio (Total Current Assets / Total Current Liabilities) rose, else 0;
any `KeyError` yields 0. -/
def criterion_6 (balance_sheet : FinTable) (curr prev : String) : ℕ :=
  match balance_sheet.loc "Total Current Assets" curr,
        balance_sheet.loc "Total Current Liabilities" curr,
        balance_sheet.loc "Total Current Assets" prev,
        balance_sheet.loc "Total Current Liabilities" prev with
  | some ca_c, some cl_c, some ca_p, some cl_p =>
      if ratio ca_c cl_c > ratio ca_p cl_p then 1 else 0
  | _, _, _, _ => 0

/-- Criterion 7 (No Dilution), from `fscore.py`: 1 if Shares Outstanding in
the current period is at most that of the previous period, else 0; a
`KeyError` yields 1 (no dilution is assumed when data is missing). -/
def criterion_7 (balance_sheet : FinTable) (curr prev : String) : ℕ :=
  match balance_sheet.loc "Shares Outstanding" curr,
        balance_sheet.loc "Shares Outstanding" prev with
  | some shares_c, some shares_p => if shares_c ≤ shares_p then 1 else 0
  | _, _ => 1

/-- Criterion 8 (Gross Margin Improvement), from `fscore.py`: 1 if gross
margin (Total Revenue minus Cost Of Revenue, over Total Revenue) rose,
else 0; any `KeyError` yields 0. -/
def criterion_8 (financials : FinTable) (curr prev : String) : ℕ :=
  match financials.loc "Total Revenue" curr, financials.loc "Cost Of Revenue" curr,
        financials.loc "Total Revenue" prev, financials.loc "Cost Of Revenue" prev with
  | some rev_c, some cogs_c, some rev_p, some cogs_p =>
      if ratio (rev_c - cogs_c) rev_c > ratio (rev_p - cogs_p) rev_p then 1 else 0
  | _, _, _, _ => 0

/-- Criterion 9 (Asset Turnover Improvement), from `fscore.py`: 1 if asset
turnover (Total Revenue / Total Assets) rose, else 0; any `KeyError`
yields 0. -/
def criterion_9 (financials balance_sheet : FinTable) (curr prev : String) : ℕ :=
  match financials.loc "Total Revenue" curr, financials.loc "Total Revenue" prev,
        balance_sheet.loc "Total Assets" curr, balance_sheet.loc "Total Assets" prev with
  | some rev_c, some rev_p, some ta_c, some ta_p =>
      if ratio rev_c ta_c > ratio rev_p ta_p then 1 else 0
  | _, _, _, _ => 0

/-- Descending order on period identifiers, via the lexicographic order on
the character data: `descPeriod a b` holds when `a ≥ b` as strings
(`String.le_iff_toList_le`).  Stated on `toList` so that it evaluates. -/
def descPeriod (a b : String) : Prop :=
  b.toList ≤ a.toList

instance : DecidableRel descPeriod := fun a b =>
  inferInstanceAs (Decidable (b.toList ≤ a.toList))

instance : IsTotal String descPeriod :=
  ⟨fun a b => le_total b.toList a.toList⟩

instance : IsTrans String descPeriod :=
  ⟨fun _ _ _ h h2 => le_trans h2 h⟩

instance : IsAntisymm String descPeriod :=
  ⟨fun _ _ h h2 => String.toList_inj.mp (le_antisymm h2 h)⟩

/-- Common reporting periods, from `fscore.py`: the intersection of the
three tables' column sets, sorted descending (most recent first). -/
def get_common_periods (financials balance_sheet cash_flow : FinTable) : List String :=
  ((financials.cols.filter
      (fun p => decide (p ∈ balance_sheet.cols ∧ p ∈ cash_flow.cols))).dedup).insertionSort
    descPeriod

/-- The output record of `compute_piotroski_fscore`: the period pair used,
the nine criterion scores, and their sum. -/
structure ScoreBreakdown where
  c1 : ℕ
  c2 : ℕ
  c3 : ℕ
  c4 : ℕ
  c5 : ℕ
  c6 : ℕ
  c7 : ℕ
  c8 : ℕ
  c9 : ℕ
  Total_FScore : ℕ
  Period : String × String
deriving DecidableEq

/-- Income statement of the specification's worked scenario: periods
`P2023` (current) and `P2022` (previous). -/
def exFin : FinTable where
  rowLabels := ["Net Income", "Total Revenue", "Cost Of Revenue"]
  cols := ["P2023", "P2022"]
  val := fun l p =>
    if l = "Net Income" then (if p = "P2023" then 100 else 80)
    else if l = "Total Revenue" then (if p = "P2023" then 1000 else 900)
    else (if p = "P2023" then 600 else 550)

/-- Balance sheet of the specification's worked scenario. -/
def exBS : FinTable where
  rowLabels := ["Total Assets", "Long Term Debt", "Total Current Assets",
                "Total Current Liabilities", "Shares Outstanding"]
  cols := ["P2023", "P2022"]
  val := fun l p =>
    if l = "Total Assets" then (if p = "P2023" then 5000 else 4800)
    else if l = "Long Term Debt" then (if p = "P2023" then 1000 else 1100)
    else if l = "Total Current Assets" then (if p = "P2023" then 1500 else 1400)
    else if l = "Total Current Liabilities" then (if p = "P2023" then 800 else 850)
    else (if p = "P2023" then 200 else 210)

/-- Cash-flow statement of the specification's worked scenario. -/
def exCF : FinTable where
  rowLabels := ["Total Cash From Operating Activities"]
  cols := ["P2023", "P2022"]
  val := fun _ p => if p = "P2023" then 120 else 100

/-- Master function, from `fscore.py`: computes the common periods, raises
`ValueError` (here `none`) when fewer than two exist, and otherwise scores
the two most recent common periods and sums the nine criteria. -/
def compute_piotroski_fscore (financials balance_sheet cash_flow : FinTable) :
    Option ScoreBreakdown :=
  match get_common_periods financials balance_sheet cash_flow with
  | curr :: prev :: _ =>
      let s1 := criterion_1 financials balance_sheet curr prev
      let s2 := criterion_2 cash_flow curr
      let s3 := criterion_3 financials balance_sheet curr prev
      let s4 := criterion_4 financials cash_flow curr
      let s5 := criterion_5 balance_sheet curr prev
      let s6 := criterion_6 balance_sheet curr prev
      let s7 := criterion_7 balance_sheet curr prev
      let s8 := criterion_8 financials curr prev
      let s9 := criterion_9 financials balance_sheet curr prev
      some { c1 := s1, c2 := s2, c3 := s3, c4 := s4, c5 := s5, c6 := s6,
             c7 := s7, c8 := s8, c9 := s9,
             Total_FScore := s1 + s2 + s3 + s4 + s5 + s6 + s7 + s8 + s9,
             Period := (curr, prev) }
  | _ => none

/-- The breakdown the engine actually produces on the worked scenario:
every criterion favorable (shares fell from 210 to 200, so No Dilution
passes) and a total of 9. -/
def exBreakdown : ScoreBreakdown where
  c1 := 1
  c2 := 1
  c3 := 1
  c4 := 1
  c5 := 1
  c6 := 1
  c7 := 1
  c8 := 1
  c9 := 1
  Total_FScore := 9
  Period := ("P2023", "P2022")

theorem criterion_1_zero_or_one (f b : FinTable) (curr prev : String) :
    criterion_1 f b curr prev = 0 ∨ criterion_1 f b curr prev = 1 := by
  unfold criterion_1
  split
  · split <;> simp
  · simp

theorem criterion_2_zero_or_one (c : FinTable) (curr : String) :
    criterion_2 c curr = 0 ∨ criterion_2 c curr = 1 := by
  unfold criterion_2
  split
  · split <;> simp
  · simp

theorem criterion_3_zero_or_one (f b : FinTable) (curr prev : String) :
    criterion_3 f b curr prev = 0 ∨ criterion_3 f b curr prev = 1 := by
  unfold criterion_3
  split
  · split <;> simp
  · simp

theorem criterion_4_zero_or_one (f c : FinTable) (curr : String) :
    criterion_4 f c curr = 0 ∨ criterion_4 f c curr = 1 := by
  unfold criterion_4
  split
  · split <;> simp
  · simp

theorem criterion_5_zero_or_one (b : FinTable) (curr prev : String) :
    criterion_5 b curr prev = 0 ∨ criterion_5 b curr prev = 1 := by
  unfold criterion_5
  split
  · split <;> simp
  · simp

theorem criterion_6_zero_or_one (b : FinTable) (curr prev : String) :
    criterion_6 b curr prev = 0 ∨ criterion_6 b curr prev = 1 := by
  unfold criterion_6
  split
  · split <;> simp
  · simp

theorem criterion_7_zero_or_one (b : FinTable) (curr prev : String) :
    criterion_7 b curr prev = 0 ∨ criterion_7 b curr prev = 1 := by
  unfold criterion_7
  split
  · split <;> simp
  · simp

theorem criterion_8_zero_or_one (f : FinTable) (curr prev : String) :
    criterion_8 f curr prev = 0 ∨ criterion_8 f curr prev = 1 := by
  unfold criterion_8
  split
  · split <;> simp
  · simp

theorem criterion_9_zero_or_one (f b : FinTable) (curr prev : String) :
    criterion_9 f b curr prev = 0 ∨ criterion_9 f b curr prev = 1 := by
  unfold criterion_9
  split
  · split <;> simp
  · simp

/-- C1: whenever `compute_piotroski_fscore` produces a breakdown, each of the
nine criterion values is exactly 0 or 1, the `Total_FScore` field is the sum
of the nine criterion values, and the total lies between 0 and 9. -/
theorem C1_breakdown_binary_and_sum (f b c : FinTable) (bd : ScoreBreakdown)
    (h : compute_piotroski_fscore f b c = some bd) :
    (bd.c1 = 0 ∨ bd.c1 = 1) ∧ (bd.c2 = 0 ∨ bd.c2 = 1) ∧ (bd.c3 = 0 ∨ bd.c3 = 1) ∧
    (bd.c4 = 0 ∨ bd.c4 = 1) ∧ (bd.c5 = 0 ∨ bd.c5 = 1) ∧ (bd.c6 = 0 ∨ bd.c6 = 1) ∧
    (bd.c7 = 0 ∨ bd.c7 = 1) ∧ (bd.c8 = 0 ∨ bd.c8 = 1) ∧ (bd.c9 = 0 ∨ bd.c9 = 1) ∧
    bd.Total_FScore =
      bd.c1 + bd.c2 + bd.c3 + bd.c4 + bd.c5 + bd.c6 + bd.c7 + bd.c8 + bd.c9 ∧
    0 ≤ bd.Total_FScore ∧ bd.Total_FScore ≤ 9 := by
  unfold compute_piotroski_fscore at h
  rcases hg : get_common_periods f b c with _ | ⟨curr, _ | ⟨prev, rest⟩⟩ <;>
    rw [hg] at h <;> dsimp only at h
  · cases h
  · cases h
  · injection h with h
    subst h
    have h1 := criterion_1_zero_or_one f b curr prev
    have h2 := criterion_2_zero_or_one c curr
    have h3 := criterion_3_zero_or_one f b curr prev
    have h4 := criterion_4_zero_or_one f c curr
    have h5 := criterion_5_zero_or_one b curr prev
    have h6 := criterion_6_zero_or_one b curr prev
    have h7 := criterion_7_zero_or_one b curr prev
    have h8 := criterion_8_zero_or_one f curr prev
    have h9 := criterion_9_zero_or_one f b curr prev
    refine ⟨h1, h2, h3, h4, h5, h6, h7, h8, h9, rfl, Nat.zero_le _, ?_⟩
    dsimp only
    omega

/-- Closed instance of C1 on the worked scenario tables. -/
theorem C1_breakdown_binary_and_sum_witness :
    compute_piotroski_fscore exFin exBS exCF = some exBreakdown ∧
    ((exBreakdown.c1 = 0 ∨ exBreakdown.c1 = 1) ∧
     (exBreakdown.c2 = 0 ∨ exBreakdown.c2 = 1) ∧
     (exBreakdown.c3 = 0 ∨ exBreakdown.c3 = 1) ∧
     (exBreakdown.c4 = 0 ∨ exBreakdown.c4 = 1) ∧
     (exBreakdown.c5 = 0 ∨ exBreakdown.c5 = 1) ∧
     (exBreakdown.c6 = 0 ∨ exBreakdown.c6 = 1) ∧
     (exBreakdown.c7 = 0 ∨ exBreakdown.c7 = 1) ∧
     (exBreakdown.c8 = 0 ∨ exBreakdown.c8 = 1) ∧
     (exBreakdown.c9 = 0 ∨ exBreakdown.c9 = 1) ∧
     exBreakdown.Total_FScore =
       exBreakdown.c1 + exBreakdown.c2 + exBreakdown.c3 + exBreakdown.c4 +
         exBreakdown.c5 + exBreakdown.c6 + exBreakdown.c7 + exBreakdown.c8 +
         exBreakdown.c9 ∧
     0 ≤ exBreakdown.Total_FScore ∧ exBreakdown.Total_FScore ≤ 9) :=
  ⟨by with_unfolding_all decide,
   C1_breakdown_binary_and_sum exFin exBS exCF exBreakdown
     (by with_unfolding_all decide)⟩

/-- The breakdown that the specification's scenario sentence predicts:
criterion 7 equal to 0 and a total of 8. -/
def specClaimedBreakdown : ScoreBreakdown where
  c1 := 1
  c2 := 1
  c3 := 1
  c4 := 1
  c5 := 1
  c6 := 1
  c7 := 0
  c8 := 1
  c9 := 1
  Total_FScore := 8
  Period := ("P2023", "P2022")

/-- C2 fails as stated: on the worked scenario the engine does not return
the predicted breakdown; criterion 7 evaluates to 1 (current shares 200 are
at most previous shares 210) and the total is 9, not 8. -/
theorem C2_scenario_counterexample :
    compute_piotroski_fscore exFin exBS exCF ≠ some specClaimedBreakdown ∧
    Option.map ScoreBreakdown.c7 (compute_piotroski_fscore exFin exBS exCF) = some 1 ∧
    Option.map ScoreBreakdown.Total_FScore (compute_piotroski_fscore exFin exBS exCF) =
      some 9 := by
  with_unfolding_all decide

/-- C2 (amended): on the worked scenario, `compute_piotroski_fscore` returns
criteria 1 through 9 all equal to 1 (criterion 7 is 1 because current
shares 200 do not exceed previous shares 210) with total 9, over the
period pair `(P2023, P2022)`. -/
theorem C2_scenario_amended :
    compute_piotroski_fscore exFin exBS exCF =
      some { c1 := 1, c2 := 1, c3 := 1, c4 := 1, c5 := 1, c6 := 1, c7 := 1,
             c8 := 1, c9 := 1, Total_FScore := 9, Period := ("P2023", "P2022") } := by
  with_unfolding_all decide

/-- C3: the engine signals the insufficient-periods error (returns no
breakdown) exactly when fewer than two periods are common to the three
tables, and produces a breakdown whenever at least two are common. -/
theorem C3_insufficient_periods_iff (f b c : FinTable) :
    (compute_piotroski_fscore f b c = none ↔
      (get_common_periods f b c).length < 2) ∧
    (2 ≤ (get_common_periods f b c).length →
      (compute_piotroski_fscore f b c).isSome) := by
  rcases hg : get_common_periods f b c with _ | ⟨curr, _ | ⟨prev, rest⟩⟩ <;>
    unfold compute_piotroski_fscore <;> rw [hg] <;> simp

theorem mem_get_common_periods (f b c : FinTable) (p : String) :
    p ∈ get_common_periods f b c ↔ p ∈ f.cols ∧ p ∈ b.cols ∧ p ∈ c.cols := by
  unfold get_common_periods
  rw [List.mem_insertionSort, List.mem_dedup, List.mem_filter]
  simp

theorem nodup_get_common_periods (f b c : FinTable) :
    (get_common_periods f b c).Nodup := by
  unfold get_common_periods
  exact (List.perm_insertionSort descPeriod _).nodup_iff.mpr (List.nodup_dedup _)

theorem sorted_get_common_periods (f b c : FinTable) :
    List.Sorted descPeriod (get_common_periods f b c) :=
  List.sorted_insertionSort descPeriod _

theorem pairwise_gt_get_common_periods (f b c : FinTable) :
    List.Pairwise (fun a b2 => b2 < a) (get_common_periods f b c) := by
  have hs := sorted_get_common_periods f b c
  have hn := nodup_get_common_periods f b c
  refine (List.Pairwise.and hs hn).imp ?_
  rintro a b2 ⟨hd, hne⟩
  rw [String.lt_iff_toList_lt]
  exact lt_of_le_of_ne hd (fun e => hne (String.toList_inj.mp e).symm)

/-- C7: `get_common_periods` returns exactly the periods present in all
three tables (the intersection of the column sets), in strictly descending
order (most recent first, no duplicates); it is a pure function with no
side effects. -/
theorem C7_common_periods_spec (f b c : FinTable) :
    (∀ p, p ∈ get_common_periods f b c ↔
      p ∈ f.cols ∧ p ∈ b.cols ∧ p ∈ c.cols) ∧
    List.Sorted descPeriod (get_common_periods f b c) ∧
    List.Pairwise (fun a b2 => b2 < a) (get_common_periods f b c) :=
  ⟨fun p => mem_get_common_periods f b c p,
   sorted_get_common_periods f b c,
   pairwise_gt_get_common_periods f b c⟩

/-- Income statement whose columns list the three years out of order, for
the period-selection scenario of C5. -/
def yearsFin : FinTable where
  rowLabels := []
  cols := ["2021", "2023", "2022"]
  val := fun _ _ => 0

/-- Balance sheet with the three years in another order. -/
def yearsBS : FinTable where
  rowLabels := []
  cols := ["2022", "2021", "2023"]
  val := fun _ _ => 0

/-- Cash-flow statement with the three years in a third order. -/
def yearsCF : FinTable where
  rowLabels := []
  cols := ["2023", "2022", "2021"]
  val := fun _ _ => 0

/-- C5: whenever a breakdown is produced, its period pair is exactly the
elements at indices 0 and 1 of the descending-sorted common-period
sequence, the current period is strictly greater than the previous one,
and on tables whose common periods are 2021, 2022 and 2023 the sorted
sequence starts with 2023 then 2022 regardless of column order. -/
theorem C5_period_pair_selection (f b c : FinTable) (bd : ScoreBreakdown)
    (h : compute_piotroski_fscore f b c = some bd) :
    (get_common_periods f b c)[0]? = some bd.Period.1 ∧
    (get_common_periods f b c)[1]? = some bd.Period.2 ∧
    bd.Period.2 < bd.Period.1 ∧
    get_common_periods yearsFin yearsBS yearsCF = ["2023", "2022", "2021"] := by
  unfold compute_piotroski_fscore at h
  rcases hg : get_common_periods f b c with _ | ⟨curr, _ | ⟨prev, rest⟩⟩ <;>
    rw [hg] at h <;> dsimp only at h
  · cases h
  · cases h
  · injection h with h
    subst h
    have hp := pairwise_gt_get_common_periods f b c
    rw [hg] at hp
    refine ⟨by simp, by simp, ?_, by with_unfolding_all decide⟩
    exact (List.pairwise_cons.mp hp).1 prev (List.mem_cons_self _ _)

/-- Closed instance of C5 on the worked scenario tables. -/
theorem C5_period_pair_selection_witness :
    compute_piotroski_fscore exFin exBS exCF = some exBreakdown ∧
    ((get_common_periods exFin exBS exCF)[0]? = some exBreakdown.Period.1 ∧
     (get_common_periods exFin exBS exCF)[1]? = some exBreakdown.Period.2 ∧
     exBreakdown.Period.2 < exBreakdown.Period.1 ∧
     get_common_periods yearsFin yearsBS yearsCF = ["2023", "2022", "2021"]) :=
  ⟨by with_unfolding_all decide,
   C5_period_pair_selection exFin exBS exCF exBreakdown
     (by with_unfolding_all decide)⟩

/-- C4: for criteria 1 through 6, 8 and 9, a missing line item or period key
(a `KeyError` on any required lookup) resolves the criterion to 0; for
criterion 7 (No Dilution), missing Shares Outstanding for either period
resolves it to 1. -/
theorem C4_missing_data_fallback (f b c : FinTable) (curr prev : String) :
    ((f.loc "Net Income" curr = none ∨ b.loc "Total Assets" curr = none) →
      criterion_1 f b curr prev = 0) ∧
    (c.loc "Total Cash From Operating Activities" curr = none →
      criterion_2 c curr = 0) ∧
    ((f.loc "Net Income" curr = none ∨ b.loc "Total Assets" curr = none ∨
      f.loc "Net Income" prev = none ∨ b.loc "Total Assets" prev = none) →
      criterion_3 f b curr prev = 0) ∧
    ((f.loc "Net Income" curr = none ∨
      c.loc "Total Cash From Operating Activities" curr = none) →
      criterion_4 f c curr = 0) ∧
    ((b.loc "Long Term Debt" curr = none ∨ b.loc "Total Assets" curr = none ∨
      b.loc "Long Term Debt" prev = none ∨ b.loc "Total Assets" prev = none) →
      criterion_5 b curr prev = 0) ∧
    ((b.loc "Total Current Assets" curr = none ∨
      b.loc "Total Current Liabilities" curr = none ∨
      b.loc "Total Current Assets" prev = none ∨
      b.loc "Total Current Liabilities" prev = none) →
      criterion_6 b curr prev = 0) ∧
    ((b.loc "Shares Outstanding" curr = none ∨
      b.loc "Shares Outstanding" prev = none) →
      criterion_7 b curr prev = 1) ∧
    ((f.loc "Total Revenue" curr = none ∨ f.loc "Cost Of Revenue" curr = none ∨
      f.loc "Total Revenue" prev = none ∨ f.loc "Cost Of Revenue" prev = none) →
      criterion_8 f curr prev = 0) ∧
    ((f.loc "Total Revenue" curr = none ∨ f.loc "Total Revenue" prev = none ∨
      b.loc "Total Assets" curr = none ∨ b.loc "Total Assets" prev = none) →
      criterion_9 f b curr prev = 0) := by
  refine ⟨?_, ?_, ?_, ?_, ?_, ?_, ?_, ?_, ?_⟩ <;> intro h
  · unfold criterion_1
    rcases h with h | h <;> split <;> simp_all
  · unfold criterion_2
    split <;> simp_all
  · unfold criterion_3
    rcases h with h | h | h | h <;> split <;> simp_all
  · unfold criterion_4
    rcases h with h | h <;> split <;> simp_all
  · unfold criterion_5
    rcases h with h | h | h | h <;> split <;> simp_all
  · unfold criterion_6
    rcases h with h | h | h | h <;> split <;> simp_all
  · unfold criterion_7
    rcases h with h | h <;> split <;> simp_all
  · unfold criterion_8
    rcases h with h | h | h | h <;> split <;> simp_all
  · unfold criterion_9
    rcases h with h | h | h | h <;> split <;> simp_all

/-- A table with no rows and no columns: every lookup raises `KeyError`. -/
def emptyTable : FinTable where
  rowLabels := []
  cols := []
  val := fun _ _ => 0

/-- Closed instance of C4 on an empty table: all lookups fail, criteria
1 through 6, 8 and 9 resolve to 0, and criterion 7 resolves to 1. -/
theorem C4_missing_data_fallback_witness :
    emptyTable.loc "Net Income" "c" = none ∧
    criterion_1 emptyTable emptyTable "c" "p" = 0 ∧
    criterion_2 emptyTable "c" = 0 ∧
    criterion_3 emptyTable emptyTable "c" "p" = 0 ∧
    criterion_4 emptyTable emptyTable "c" = 0 ∧
    criterion_5 emptyTable "c" "p" = 0 ∧
    criterion_6 emptyTable "c" "p" = 0 ∧
    criterion_7 emptyTable "c" "p" = 1 ∧
    criterion_8 emptyTable "c" "p" = 0 ∧
    criterion_9 emptyTable emptyTable "c" "p" = 0 := by
  have h := C4_missing_data_fallback emptyTable emptyTable emptyTable "c" "p"
  exact ⟨by with_unfolding_all decide,
    h.1 (Or.inl (by with_unfolding_all decide)),
    h.2.1 (by with_unfolding_all decide),
    h.2.2.1 (Or.inl (by with_unfolding_all decide)),
    h.2.2.2.1 (Or.inl (by with_unfolding_all decide)),
    h.2.2.2.2.1 (Or.inl (by with_unfolding_all decide)),
    h.2.2.2.2.2.1 (Or.inl (by with_unfolding_all decide)),
    h.2.2.2.2.2.2.1 (Or.inl (by with_unfolding_all decide)),
    h.2.2.2.2.2.2.2.1 (Or.inl (by with_unfolding_all decide)),
    h.2.2.2.2.2.2.2.2 (Or.inl (by with_unfolding_all decide))⟩

/-- C6: a zero denominator never raises a division fault: the guarded ratio
is 0 whenever the denominator is 0; in particular, a current-period Total
Assets of 0 makes criterion 1 return 0 and reduces criterion 3 to comparing
a current ROA term of 0 against the previous ROA. -/
theorem C6_zero_denominator_safe (f b : FinTable) (curr prev : String)
    (num ni_c ni_p ta_p : ℚ) :
    ratio num 0 = 0 ∧
    (b.loc "Total Assets" curr = some 0 → criterion_1 f b curr prev = 0) ∧
    (b.loc "Total Assets" curr = some 0 → f.loc "Net Income" curr = some ni_c →
      f.loc "Net Income" prev = some ni_p → b.loc "Total Assets" prev = some ta_p →
      criterion_3 f b curr prev = if ratio ni_p ta_p < 0 then 1 else 0) := by
  refine ⟨by simp [ratio], ?_, ?_⟩
  · intro h
    unfold criterion_1
    split
    · rename_i net_income total_assets heq1 heq2
      rw [h] at heq2
      injection heq2 with heq2
      subst heq2
      simp [ratio]
    · rfl
  · intro h h1 h2 h3
    unfold criterion_3
    rw [h1, h, h2, h3]
    dsimp only
    simp only [ratio, if_pos rfl]
    by_cases hz : ta_p = 0 <;> simp [hz, gt_iff_lt]

/-- Income statement for the zero-denominator scenario: Net Income 5 in the
current period `c` and -3 in the previous period `p`. -/
def zeroFin : FinTable where
  rowLabels := ["Net Income"]
  cols := ["c", "p"]
  val := fun _ p => if p = "c" then 5 else -3

/-- Balance sheet for the zero-denominator scenario: Total Assets 0 in both
periods. -/
def zeroBS : FinTable where
  rowLabels := ["Total Assets"]
  cols := ["c", "p"]
  val := fun _ _ => 0

/-- Closed instance of C6: with current Total Assets 0, criterion 1 is 0 and
criterion 3 compares a zero current ROA against the previous ROA. -/
theorem C6_zero_denominator_safe_witness :
    zeroBS.loc "Total Assets" "c" = some 0 ∧
    ratio 7 0 = 0 ∧
    criterion_1 zeroFin zeroBS "c" "p" = 0 ∧
    criterion_3 zeroFin zeroBS "c" "p" = if ratio (-3) 0 < 0 then 1 else 0 := by
  have h := C6_zero_denominator_safe zeroFin zeroBS "c" "p" 7 5 (-3) 0
  exact ⟨by with_unfolding_all decide, h.1,
    h.2.1 (by with_unfolding_all decide),
    h.2.2 (by with_unfolding_all decide) (by with_unfolding_all decide)
      (by with_unfolding_all decide) (by with_unfolding_all decide)⟩

/-- C10: criteria 1, 2 and 4 depend only on current-period data: two sets of
tables that agree on every lookup at the current period give the same values
for these three evaluators, for any previous-period arguments (criterion 1
accepts `prev` but ignores it). -/
theorem C10_current_period_dependence (f b c f2 b2 c2 : FinTable)
    (curr prev prev2 : String)
    (hf : ∀ l, f.loc l curr = f2.loc l curr)
    (hb : ∀ l, b.loc l curr = b2.loc l curr)
    (hc : ∀ l, c.loc l curr = c2.loc l curr) :
    criterion_1 f b curr prev = criterion_1 f2 b2 curr prev2 ∧
    criterion_2 c curr = criterion_2 c2 curr ∧
    criterion_4 f c curr = criterion_4 f2 c2 curr := by
  refine ⟨?_, ?_, ?_⟩
  · unfold criterion_1
    rw [hf "Net Income", hb "Total Assets"]
  · unfold criterion_2
    rw [hc "Total Cash From Operating Activities"]
  · unfold criterion_4
    rw [hf "Net Income", hc "Total Cash From Operating Activities"]

/-- Closed instance of C10 on the worked scenario: replacing the previous
period by an arbitrary other key leaves criteria 1, 2 and 4 unchanged. -/
theorem C10_current_period_dependence_witness :
    criterion_1 exFin exBS "P2023" "P2022" = criterion_1 exFin exBS "P2023" "X" ∧
    criterion_2 exCF "P2023" = criterion_2 exCF "P2023" ∧
    criterion_4 exFin exCF "P2023" = criterion_4 exFin exCF "P2023" :=
  C10_current_period_dependence exFin exBS exCF exFin exBS exCF "P2023" "P2022" "X"
    (fun _ => rfl) (fun _ => rfl) (fun _ => rfl)

theorem get_common_periods_congr (f b c f2 b2 c2 : FinTable)
    (hfc : ∀ p, p ∈ f.cols ↔ p ∈ f2.cols)
    (hbc : ∀ p, p ∈ b.cols ↔ p ∈ b2.cols)
    (hcc : ∀ p, p ∈ c.cols ↔ p ∈ c2.cols) :
    get_common_periods f b c = get_common_periods f2 b2 c2 := by
  unfold get_common_periods
  apply List.eq_of_perm_of_sorted ?_ (List.sorted_insertionSort _ _)
    (List.sorted_insertionSort _ _)
  apply (List.perm_insertionSort _ _).trans
  apply List.Perm.trans ?_ (List.perm_insertionSort _ _).symm
  apply (List.perm_ext_iff_of_nodup (List.nodup_dedup _) (List.nodup_dedup _)).mpr
  intro a
  simp only [List.mem_dedup, List.mem_filter, decide_eq_true_eq]
  rw [hfc a, hbc a, hcc a]

/-- C8: the scoring computation is deterministic and free of hidden state:
two invocations on tables with the same observable content (same period
columns up to membership and the same value at every label/period lookup)
produce the same breakdown; in particular identical inputs always yield
identical output. -/
theorem C8_determinism (f b c f2 b2 c2 : FinTable)
    (hfc : ∀ p, p ∈ f.cols ↔ p ∈ f2.cols)
    (hbc : ∀ p, p ∈ b.cols ↔ p ∈ b2.cols)
    (hcc : ∀ p, p ∈ c.cols ↔ p ∈ c2.cols)
    (hf : ∀ l p, f.loc l p = f2.loc l p)
    (hb : ∀ l p, b.loc l p = b2.loc l p)
    (hc : ∀ l p, c.loc l p = c2.loc l p) :
    compute_piotroski_fscore f b c = compute_piotroski_fscore f2 b2 c2 := by
  have hg := get_common_periods_congr f b c f2 b2 c2 hfc hbc hcc
  unfold compute_piotroski_fscore
  rw [← hg]
  rcases hl : get_common_periods f b c with _ | ⟨curr, _ | ⟨prev, rest⟩⟩ <;>
    dsimp only <;>
    simp only [criterion_1, criterion_2, criterion_3, criterion_4, criterion_5,
      criterion_6, criterion_7, criterion_8, criterion_9, hf, hb, hc]

/-- A variant of `exFin` whose cell function differs only at a label that is
not in the row index: observationally the same table. -/
def exFin2 : FinTable where
  rowLabels := exFin.rowLabels
  cols := exFin.cols
  val := fun l p => if l = "Junk" then 42 else exFin.val l p

theorem exFin_loc_eq_exFin2 (l p : String) : exFin.loc l p = exFin2.loc l p := by
  have hrow : exFin2.rowLabels = exFin.rowLabels := rfl
  have hcols : exFin2.cols = exFin.cols := rfl
  unfold FinTable.loc
  rw [hrow, hcols]
  by_cases h : l ∈ exFin.rowLabels ∧ p ∈ exFin.cols
  · have hl : l ≠ "Junk" := by
      have hm := h.1
      simp only [exFin, List.mem_cons, List.mem_singleton] at hm
      rcases hm with rfl | rfl | hm
      · decide
      · decide
      · simp at hm
        subst hm
        decide
    rw [if_pos h, if_pos h]
    show _ = some (exFin2.val l p)
    simp [exFin2, hl]
  · rw [if_neg h, if_neg h]

/-- Closed instance of C8: the worked scenario scored against the
observationally equal variant income statement gives the same breakdown. -/
theorem C8_determinism_witness :
    compute_piotroski_fscore exFin exBS exCF =
      compute_piotroski_fscore exFin2 exBS exCF :=
  C8_determinism exFin exBS exCF exFin2 exBS exCF
    (fun _ => Iff.rfl) (fun _ => Iff.rfl) (fun _ => Iff.rfl)
    exFin_loc_eq_exFin2 (fun _ _ => rfl) (fun _ _ => rfl)

/-- The caller's in-memory state for one scoring invocation: the three
statement tables passed to the engine. -/
structure TablesState where
  financials : FinTable
  balance_sheet : FinTable
  cash_flow : FinTable

/-- A `financials.loc[...]` element access as a state transition: pandas
element reads return the value and leave the frames untouched. -/
def readFin (s : TablesState) (label period : String) : Option ℚ × TablesState :=
  (s.financials.loc label period, s)

/-- A `balance_sheet.loc[...]` element access as a state transition. -/
def readBS (s : TablesState) (label period : String) : Option ℚ × TablesState :=
  (s.balance_sheet.loc label period, s)

/-- A `cash_flow.loc[...]` element access as a state transition. -/
def readCF (s : TablesState) (label period : String) : Option ℚ × TablesState :=
  (s.cash_flow.loc label period, s)

/-- Criterion 1 with explicit state threading through its two reads. -/
def criterion_1_st (s : TablesState) (curr prev : String) : ℕ × TablesState :=
  let r1 := readFin s "Net Income" curr
  let r2 := readBS r1.2 "Total Assets" curr
  (match r1.1, r2.1 with
   | some net_income, some total_assets =>
       if ratio net_income total_assets > 0 then 1 else 0
   | _, _ => 0,
   r2.2)

/-- Criterion 2 with explicit state threading. -/
def criterion_2_st (s : TablesState) (curr : String) : ℕ × TablesState :=
  let r1 := readCF s "Total Cash From Operating Activities" curr
  (match r1.1 with
   | some ocf => if ocf > 0 then 1 else 0
   | none => 0,
   r1.2)

/-- Criterion 3 with explicit state threading. -/
def criterion_3_st (s : TablesState) (curr prev : String) : ℕ × TablesState :=
  let r1 := readFin s "Net Income" curr
  let r2 := readBS r1.2 "Total Assets" curr
  let r3 := readFin r2.2 "Net Income" prev
  let r4 := readBS r3.2 "Total Assets" prev
  (match r1.1, r2.1, r3.1, r4.1 with
   | some ni_c, some ta_c, some ni_p, some ta_p =>
       if ratio ni_c ta_c > ratio ni_p ta_p then 1 else 0
   | _, _, _, _ => 0,
   r4.2)

/-- Criterion 4 with explicit state threading. -/
def criterion_4_st (s : TablesState) (curr : String) : ℕ × TablesState :=
  let r1 := readFin s "Net Income" curr
  let r2 := readCF r1.2 "Total Cash From Operating Activities" curr
  (match r1.1, r2.1 with
   | some net_income, some ocf => if ocf > net_income then 1 else 0
   | _, _ => 0,
   r2.2)

/-- Criterion 5 with explicit state threading. -/
def criterion_5_st (s : TablesState) (curr prev : String) : ℕ × TablesState :=
  let r1 := readBS s "Long Term Debt" curr
  let r2 := readBS r1.2 "Total Assets" curr
  let r3 := readBS r2.2 "Long Term Debt" prev
  let r4 := readBS r3.2 "Total Assets" prev
  (match r1.1, r2.1, r3.1, r4.1 with
   | some ltd_c, some ta_c, some ltd_p, some ta_p =>
       if ratio ltd_c ta_c < ratio ltd_p ta_p then 1 else 0
   | _, _, _, _ => 0,
   r4.2)

/-- Criterion 6 with explicit state threading. -/
def criterion_6_st (s : TablesState) (curr prev : String) : ℕ × TablesState :=
  let r1 := readBS s "Total Current Assets" curr
  let r2 := readBS r1.2 "Total Current Liabilities" curr
  let r3 := readBS r2.2 "Total Current Assets" prev
  let r4 := readBS r3.2 "Total Current Liabilities" prev
  (match r1.1, r2.1, r3.1, r4.1 with
   | some ca_c, some cl_c, some ca_p, some cl_p =>
       if ratio ca_c cl_c > ratio ca_p cl_p then 1 else 0
   | _, _, _, _ => 0,
   r4.2)

/-- Criterion 7 with explicit state threading. -/
def criterion_7_st (s : TablesState) (curr prev : String) : ℕ × TablesState :=
  let r1 := readBS s "Shares Outstanding" curr
  let r2 := readBS r1.2 "Shares Outstanding" prev
  (match r1.1, r2.1 with
   | some shares_c, some shares_p => if shares_c ≤ shares_p then 1 else 0
   | _, _ => 1,
   r2.2)

/-- Criterion 8 with explicit state threading. -/
def criterion_8_st (s : TablesState) (curr prev : String) : ℕ × TablesState :=
  let r1 := readFin s "Total Revenue" curr
  let r2 := readFin r1.2 "Cost Of Revenue" curr
  let r3 := readFin r2.2 "Total Revenue" prev
  let r4 := readFin r3.2 "Cost Of Revenue" prev
  (match r1.1, r2.1, r3.1, r4.1 with
   | some rev_c, some cogs_c, some rev_p, some cogs_p =>
       if ratio (rev_c - cogs_c) rev_c > ratio (rev_p - cogs_p) rev_p then 1 else 0
   | _, _, _, _ => 0,
   r4.2)

/-- Criterion 9 with explicit state threading. -/
def criterion_9_st (s : TablesState) (curr prev : String) : ℕ × TablesState :=
  let r1 := readFin s "Total Revenue" curr
  let r2 := readFin r1.2 "Total Revenue" prev
  let r3 := readBS r2.2 "Total Assets" curr
  let r4 := readBS r3.2 "Total Assets" prev
  (match r1.1, r2.1, r3.1, r4.1 with
   | some rev_c, some rev_p, some ta_c, some ta_p =>
       if ratio rev_c ta_c > ratio rev_p ta_p then 1 else 0
   | _, _, _, _ => 0,
   r4.2)

/-- Reading the three column indexes for period alignment is also a pure
read of the frames. -/
def get_common_periods_st (s : TablesState) : List String × TablesState :=
  (get_common_periods s.financials s.balance_sheet s.cash_flow, s)

/-- The master function with explicit state threading through the period
alignment and the nine criterion evaluations, in source order. -/
def compute_piotroski_fscore_st (s : TablesState) :
    Option ScoreBreakdown × TablesState :=
  let rg := get_common_periods_st s
  match rg.1 with
  | curr :: prev :: _ =>
      let r1 := criterion_1_st rg.2 curr prev
      let r2 := criterion_2_st r1.2 curr
      let r3 := criterion_3_st r2.2 curr prev
      let r4 := criterion_4_st r3.2 curr
      let r5 := criterion_5_st r4.2 curr prev
      let r6 := criterion_6_st r5.2 curr prev
      let r7 := criterion_7_st r6.2 curr prev
      let r8 := criterion_8_st r7.2 curr prev
      let r9 := criterion_9_st r8.2 curr prev
      (some { c1 := r1.1, c2 := r2.1, c3 := r3.1, c4 := r4.1, c5 := r5.1,
              c6 := r6.1, c7 := r7.1, c8 := r8.1, c9 := r9.1,
              Total_FScore := r1.1 + r2.1 + r3.1 + r4.1 + r5.1 + r6.1 + r7.1 +
                r8.1 + r9.1,
              Period := (curr, prev) },
       r9.2)
  | _ => (none, rg.2)

/-- C9: the scoring invocation and every criterion evaluator leave the three
input tables unchanged: the post-invocation state equals the initial state,
every `(label, period)` entry of each table reads the same before and
after, and the threaded computation returns exactly the pure breakdown. -/
theorem C9_tables_unchanged (s : TablesState) (curr prev : String) :
    (compute_piotroski_fscore_st s).2 = s ∧
    (criterion_1_st s curr prev).2 = s ∧
    (criterion_2_st s curr).2 = s ∧
    (criterion_3_st s curr prev).2 = s ∧
    (criterion_4_st s curr).2 = s ∧
    (criterion_5_st s curr prev).2 = s ∧
    (criterion_6_st s curr prev).2 = s ∧
    (criterion_7_st s curr prev).2 = s ∧
    (criterion_8_st s curr prev).2 = s ∧
    (criterion_9_st s curr prev).2 = s ∧
    (get_common_periods_st s).2 = s ∧
    (compute_piotroski_fscore_st s).1 =
      compute_piotroski_fscore s.financials s.balance_sheet s.cash_flow ∧
    (∀ l p, ((compute_piotroski_fscore_st s).2).financials.loc l p =
      s.financials.loc l p) ∧
    (∀ l p, ((compute_piotroski_fscore_st s).2).balance_sheet.loc l p =
      s.balance_sheet.loc l p) ∧
    (∀ l p, ((compute_piotroski_fscore_st s).2).cash_flow.loc l p =
      s.cash_flow.loc l p) := by
  have hsnd : (compute_piotroski_fscore_st s).2 = s := by
    unfold compute_piotroski_fscore_st get_common_periods_st
    rcases hg : get_common_periods s.financials s.balance_sheet s.cash_flow with
      _ | ⟨x, _ | ⟨y, ys⟩⟩ <;> rfl
  have hfst : (compute_piotroski_fscore_st s).1 =
      compute_piotroski_fscore s.financials s.balance_sheet s.cash_flow := by
    unfold compute_piotroski_fscore_st get_common_periods_st
      compute_piotroski_fscore
    rcases hg : get_common_periods s.financials s.balance_sheet s.cash_flow with
      _ | ⟨x, _ | ⟨y, ys⟩⟩ <;> rfl
  refine ⟨hsnd, rfl, rfl, rfl, rfl, rfl, rfl, rfl, rfl, rfl, rfl, hfst,
    ?_, ?_, ?_⟩ <;> intro l p <;> rw [hsnd]

/-- Closed instance of C3: the worked scenario (two common periods) yields a
breakdown, and three empty tables (no common periods) yield none. -/
theorem C3_insufficient_periods_iff_witness :
    (compute_piotroski_fscore exFin exBS exCF).isSome ∧
    compute_piotroski_fscore emptyTable emptyTable emptyTable = none :=
  ⟨(C3_insufficient_periods_iff exFin exBS exCF).2 (by with_unfolding_all decide),
   (C3_insufficient_periods_iff emptyTable emptyTable emptyTable).1.mpr
     (by with_unfolding_all decide)⟩
